import Mathlib

set_option maxRecDepth 16384

/-!
Verification of the research-cycle automation script (`run_prof_mackson.py`).

The development shallowly embeds the script's logic:

* `Json` and `json_loads_list` model Python's `json.loads` (RFC 8259 grammar
  with Python's extras `NaN`, `Infinity`, `-Infinity`, strict control-character
  checking in strings, and rejection of trailing data).  Parsed strings and
  object keys are decoded code-point sequences (`List Nat`), exactly as
  Python decodes escape sequences — including combining a high/low surrogate
  escape pair into one scalar and keeping a lone surrogate escape as a lone
  surrogate code, which a Lean `String` could not represent.  Numbers keep
  their lexeme; no claim compares parses of distinct number texts.
* `cleanText`, `scanBalanced` and `_extract_json` model the extractor
  function `_extract_json` of the script line by line; `pyIsSpace` is the
  full Unicode whitespace set stripped by Python's `str.strip()`, and
  `alnumRanges` is the full Unicode table behind Python's `str.isalnum`.
* `send_email`, `cycleBody` and `run_daily_research_cycle` model the
  notifier and the orchestrator.  External effects (model replies, the SMTP
  outcome, today's date) are inputs in `CycleEnv`; performed effects are
  recorded in the returned trace, and the orchestrator's `try/except`
  becomes the pairing of `cycleBody` (which can end with an uncaught
  `PyErr`) with `run_daily_research_cycle` (which logs the error into the
  trace instead of re-raising).  The filesystem write is modelled as
  succeeding: the output directory is created at startup, and claims about
  full runs carry hypotheses keeping the derived path well within the
  filesystem's name limits.
-/

/-- The opening curly brace character. -/
def obr : Char := Char.ofNat 123

/-- The closing curly brace character. -/
def cbr : Char := Char.ofNat 125

/-- The backtick character. -/
def btick : Char := Char.ofNat 96

/-- The code points of a Lean string, the representation shared with decoded
JSON strings. -/
def strCodes (s : String) : List Nat := s.data.map Char.toNat

/-- A code point that is a Unicode scalar value, i.e. representable in a
Python `str` that UTF-8 can encode (not a lone surrogate). -/
def isValidScalar (n : Nat) : Bool :=
  decide (n < 0xD800) || (decide (0xDFFF < n) && decide (n < 0x110000))

/-- Turn code points back into a string.  Total: a code that is not a valid
scalar value becomes the NUL character; every use is either guarded by
`isValidScalar` or relies on NUL being discarded exactly where Python
discards the surrogate (the title sanitizer's filter). -/
def codesToStr (cs : List Nat) : String := String.mk (cs.map Char.ofNat)

/-- The code points stripped by Python's no-argument `str.strip()`: every
code point `c` with `chr(c).isspace()` true, from the Unicode data of the
Python runtime. -/
def pyWsCodes : List Nat :=
  [9, 10, 11, 12, 13, 28, 29, 30, 31, 32, 133, 160, 5760, 8192, 8193, 8194, 8195, 8196,
   8197, 8198, 8199, 8200, 8201, 8202, 8232, 8233, 8239, 8287, 12288]

/-- Whitespace as recognised by Python's `str.strip()` and `str.isspace()`. -/
def pyIsSpace (c : Char) : Bool := pyWsCodes.contains c.toNat

/-- The closed ranges of Unicode code points accepted by Python's
`str.isalnum` (letters and numeric characters), generated from the
Unicode data of the Python runtime. -/
def alnumRanges : List (Nat × Nat) := [
  (48, 57), (65, 90), (97, 122), (170, 170), (178, 179), (181, 181), (185, 186), (188, 190),
  (192, 214), (216, 246), (248, 705), (710, 721), (736, 740), (748, 748), (750, 750), (880, 884),
  (886, 887), (890, 893), (895, 895), (902, 902), (904, 906), (908, 908), (910, 929), (931, 1013),
  (1015, 1153), (1162, 1327), (1329, 1366), (1369, 1369), (1376, 1416), (1488, 1514), (1519, 1522),
  (1568, 1610), (1632, 1641), (1646, 1647), (1649, 1747), (1749, 1749), (1765, 1766), (1774, 1788),
  (1791, 1791), (1808, 1808), (1810, 1839), (1869, 1957), (1969, 1969), (1984, 2026), (2036, 2037),
  (2042, 2042), (2048, 2069), (2074, 2074), (2084, 2084), (2088, 2088), (2112, 2136), (2144, 2154),
  (2160, 2183), (2185, 2190), (2208, 2249), (2308, 2361), (2365, 2365), (2384, 2384), (2392, 2401),
  (2406, 2415), (2417, 2432), (2437, 2444), (2447, 2448), (2451, 2472), (2474, 2480), (2482, 2482),
  (2486, 2489), (2493, 2493), (2510, 2510), (2524, 2525), (2527, 2529), (2534, 2545), (2548, 2553),
  (2556, 2556), (2565, 2570), (2575, 2576), (2579, 2600), (2602, 2608), (2610, 2611), (2613, 2614),
  (2616, 2617), (2649, 2652), (2654, 2654), (2662, 2671), (2674, 2676), (2693, 2701), (2703, 2705),
  (2707, 2728), (2730, 2736), (2738, 2739), (2741, 2745), (2749, 2749), (2768, 2768), (2784, 2785),
  (2790, 2799), (2809, 2809), (2821, 2828), (2831, 2832), (2835, 2856), (2858, 2864), (2866, 2867),
  (2869, 2873), (2877, 2877), (2908, 2909), (2911, 2913), (2918, 2927), (2929, 2935), (2947, 2947),
  (2949, 2954), (2958, 2960), (2962, 2965), (2969, 2970), (2972, 2972), (2974, 2975), (2979, 2980),
  (2984, 2986), (2990, 3001), (3024, 3024), (3046, 3058), (3077, 3084), (3086, 3088), (3090, 3112),
  (3114, 3129), (3133, 3133), (3160, 3162), (3165, 3165), (3168, 3169), (3174, 3183), (3192, 3198),
  (3200, 3200), (3205, 3212), (3214, 3216), (3218, 3240), (3242, 3251), (3253, 3257), (3261, 3261),
  (3293, 3294), (3296, 3297), (3302, 3311), (3313, 3314), (3332, 3340), (3342, 3344), (3346, 3386),
  (3389, 3389), (3406, 3406), (3412, 3414), (3416, 3425), (3430, 3448), (3450, 3455), (3461, 3478),
  (3482, 3505), (3507, 3515), (3517, 3517), (3520, 3526), (3558, 3567), (3585, 3632), (3634, 3635),
  (3648, 3654), (3664, 3673), (3713, 3714), (3716, 3716), (3718, 3722), (3724, 3747), (3749, 3749),
  (3751, 3760), (3762, 3763), (3773, 3773), (3776, 3780), (3782, 3782), (3792, 3801), (3804, 3807),
  (3840, 3840), (3872, 3891), (3904, 3911), (3913, 3948), (3976, 3980), (4096, 4138), (4159, 4169),
  (4176, 4181), (4186, 4189), (4193, 4193), (4197, 4198), (4206, 4208), (4213, 4225), (4238, 4238),
  (4240, 4249), (4256, 4293), (4295, 4295), (4301, 4301), (4304, 4346), (4348, 4680), (4682, 4685),
  (4688, 4694), (4696, 4696), (4698, 4701), (4704, 4744), (4746, 4749), (4752, 4784), (4786, 4789),
  (4792, 4798), (4800, 4800), (4802, 4805), (4808, 4822), (4824, 4880), (4882, 4885), (4888, 4954),
  (4969, 4988), (4992, 5007), (5024, 5109), (5112, 5117), (5121, 5740), (5743, 5759), (5761, 5786),
  (5792, 5866), (5870, 5880), (5888, 5905), (5919, 5937), (5952, 5969), (5984, 5996), (5998, 6000),
  (6016, 6067), (6103, 6103), (6108, 6108), (6112, 6121), (6128, 6137), (6160, 6169), (6176, 6264),
  (6272, 6276), (6279, 6312), (6314, 6314), (6320, 6389), (6400, 6430), (6470, 6509), (6512, 6516),
  (6528, 6571), (6576, 6601), (6608, 6618), (6656, 6678), (6688, 6740), (6784, 6793), (6800, 6809),
  (6823, 6823), (6917, 6963), (6981, 6988), (6992, 7001), (7043, 7072), (7086, 7141), (7168, 7203),
  (7232, 7241), (7245, 7293), (7296, 7304), (7312, 7354), (7357, 7359), (7401, 7404), (7406, 7411),
  (7413, 7414), (7418, 7418), (7424, 7615), (7680, 7957), (7960, 7965), (7968, 8005), (8008, 8013),
  (8016, 8023), (8025, 8025), (8027, 8027), (8029, 8029), (8031, 8061), (8064, 8116), (8118, 8124),
  (8126, 8126), (8130, 8132), (8134, 8140), (8144, 8147), (8150, 8155), (8160, 8172), (8178, 8180),
  (8182, 8188), (8304, 8305), (8308, 8313), (8319, 8329), (8336, 8348), (8450, 8450), (8455, 8455),
  (8458, 8467), (8469, 8469), (8473, 8477), (8484, 8484), (8486, 8486), (8488, 8488), (8490, 8493),
  (8495, 8505), (8508, 8511), (8517, 8521), (8526, 8526), (8528, 8585), (9312, 9371), (9450, 9471),
  (10102, 10131), (11264, 11492), (11499, 11502), (11506, 11507), (11517, 11517), (11520, 11557),
  (11559, 11559), (11565, 11565), (11568, 11623), (11631, 11631), (11648, 11670), (11680, 11686),
  (11688, 11694), (11696, 11702), (11704, 11710), (11712, 11718), (11720, 11726), (11728, 11734),
  (11736, 11742), (11823, 11823), (12293, 12295), (12321, 12329), (12337, 12341), (12344, 12348),
  (12353, 12438), (12445, 12447), (12449, 12538), (12540, 12543), (12549, 12591), (12593, 12686),
  (12690, 12693), (12704, 12735), (12784, 12799), (12832, 12841), (12872, 12879), (12881, 12895),
  (12928, 12937), (12977, 12991), (13312, 19903), (19968, 42124), (42192, 42237), (42240, 42508),
  (42512, 42539), (42560, 42606), (42623, 42653), (42656, 42735), (42775, 42783), (42786, 42888),
  (42891, 42954), (42960, 42961), (42963, 42963), (42965, 42969), (42994, 43009), (43011, 43013),
  (43015, 43018), (43020, 43042), (43056, 43061), (43072, 43123), (43138, 43187), (43216, 43225),
  (43250, 43255), (43259, 43259), (43261, 43262), (43264, 43301), (43312, 43334), (43360, 43388),
  (43396, 43442), (43471, 43481), (43488, 43492), (43494, 43518), (43520, 43560), (43584, 43586),
  (43588, 43595), (43600, 43609), (43616, 43638), (43642, 43642), (43646, 43695), (43697, 43697),
  (43701, 43702), (43705, 43709), (43712, 43712), (43714, 43714), (43739, 43741), (43744, 43754),
  (43762, 43764), (43777, 43782), (43785, 43790), (43793, 43798), (43808, 43814), (43816, 43822),
  (43824, 43866), (43868, 43881), (43888, 44002), (44016, 44025), (44032, 55203), (55216, 55238),
  (55243, 55291), (63744, 64109), (64112, 64217), (64256, 64262), (64275, 64279), (64285, 64285),
  (64287, 64296), (64298, 64310), (64312, 64316), (64318, 64318), (64320, 64321), (64323, 64324),
  (64326, 64433), (64467, 64829), (64848, 64911), (64914, 64967), (65008, 65019), (65136, 65140),
  (65142, 65276), (65296, 65305), (65313, 65338), (65345, 65370), (65382, 65470), (65474, 65479),
  (65482, 65487), (65490, 65495), (65498, 65500), (65536, 65547), (65549, 65574), (65576, 65594),
  (65596, 65597), (65599, 65613), (65616, 65629), (65664, 65786), (65799, 65843), (65856, 65912),
  (65930, 65931), (66176, 66204), (66208, 66256), (66273, 66299), (66304, 66339), (66349, 66378),
  (66384, 66421), (66432, 66461), (66464, 66499), (66504, 66511), (66513, 66517), (66560, 66717),
  (66720, 66729), (66736, 66771), (66776, 66811), (66816, 66855), (66864, 66915), (66928, 66938),
  (66940, 66954), (66956, 66962), (66964, 66965), (66967, 66977), (66979, 66993), (66995, 67001),
  (67003, 67004), (67072, 67382), (67392, 67413), (67424, 67431), (67456, 67461), (67463, 67504),
  (67506, 67514), (67584, 67589), (67592, 67592), (67594, 67637), (67639, 67640), (67644, 67644),
  (67647, 67669), (67672, 67702), (67705, 67742), (67751, 67759), (67808, 67826), (67828, 67829),
  (67835, 67867), (67872, 67897), (67968, 68023), (68028, 68047), (68050, 68096), (68112, 68115),
  (68117, 68119), (68121, 68149), (68160, 68168), (68192, 68222), (68224, 68255), (68288, 68295),
  (68297, 68324), (68331, 68335), (68352, 68405), (68416, 68437), (68440, 68466), (68472, 68497),
  (68521, 68527), (68608, 68680), (68736, 68786), (68800, 68850), (68858, 68899), (68912, 68921),
  (69216, 69246), (69248, 69289), (69296, 69297), (69376, 69415), (69424, 69445), (69457, 69460),
  (69488, 69505), (69552, 69579), (69600, 69622), (69635, 69687), (69714, 69743), (69745, 69746),
  (69749, 69749), (69763, 69807), (69840, 69864), (69872, 69881), (69891, 69926), (69942, 69951),
  (69956, 69956), (69959, 69959), (69968, 70002), (70006, 70006), (70019, 70066), (70081, 70084),
  (70096, 70106), (70108, 70108), (70113, 70132), (70144, 70161), (70163, 70187), (70272, 70278),
  (70280, 70280), (70282, 70285), (70287, 70301), (70303, 70312), (70320, 70366), (70384, 70393),
  (70405, 70412), (70415, 70416), (70419, 70440), (70442, 70448), (70450, 70451), (70453, 70457),
  (70461, 70461), (70480, 70480), (70493, 70497), (70656, 70708), (70727, 70730), (70736, 70745),
  (70751, 70753), (70784, 70831), (70852, 70853), (70855, 70855), (70864, 70873), (71040, 71086),
  (71128, 71131), (71168, 71215), (71236, 71236), (71248, 71257), (71296, 71338), (71352, 71352),
  (71360, 71369), (71424, 71450), (71472, 71483), (71488, 71494), (71680, 71723), (71840, 71922),
  (71935, 71942), (71945, 71945), (71948, 71955), (71957, 71958), (71960, 71983), (71999, 71999),
  (72001, 72001), (72016, 72025), (72096, 72103), (72106, 72144), (72161, 72161), (72163, 72163),
  (72192, 72192), (72203, 72242), (72250, 72250), (72272, 72272), (72284, 72329), (72349, 72349),
  (72368, 72440), (72704, 72712), (72714, 72750), (72768, 72768), (72784, 72812), (72818, 72847),
  (72960, 72966), (72968, 72969), (72971, 73008), (73030, 73030), (73040, 73049), (73056, 73061),
  (73063, 73064), (73066, 73097), (73112, 73112), (73120, 73129), (73440, 73458), (73648, 73648),
  (73664, 73684), (73728, 74649), (74752, 74862), (74880, 75075), (77712, 77808), (77824, 78894),
  (82944, 83526), (92160, 92728), (92736, 92766), (92768, 92777), (92784, 92862), (92864, 92873),
  (92880, 92909), (92928, 92975), (92992, 92995), (93008, 93017), (93019, 93025), (93027, 93047),
  (93053, 93071), (93760, 93846), (93952, 94026), (94032, 94032), (94099, 94111), (94176, 94177),
  (94179, 94179), (94208, 100343), (100352, 101589), (101632, 101640), (110576, 110579),
  (110581, 110587), (110589, 110590), (110592, 110882), (110928, 110930), (110948, 110951),
  (110960, 111355), (113664, 113770), (113776, 113788), (113792, 113800), (113808, 113817),
  (119520, 119539), (119648, 119672), (119808, 119892), (119894, 119964), (119966, 119967),
  (119970, 119970), (119973, 119974), (119977, 119980), (119982, 119993), (119995, 119995),
  (119997, 120003), (120005, 120069), (120071, 120074), (120077, 120084), (120086, 120092),
  (120094, 120121), (120123, 120126), (120128, 120132), (120134, 120134), (120138, 120144),
  (120146, 120485), (120488, 120512), (120514, 120538), (120540, 120570), (120572, 120596),
  (120598, 120628), (120630, 120654), (120656, 120686), (120688, 120712), (120714, 120744),
  (120746, 120770), (120772, 120779), (120782, 120831), (122624, 122654), (123136, 123180),
  (123191, 123197), (123200, 123209), (123214, 123214), (123536, 123565), (123584, 123627),
  (123632, 123641), (124896, 124902), (124904, 124907), (124909, 124910), (124912, 124926),
  (124928, 125124), (125127, 125135), (125184, 125251), (125259, 125259), (125264, 125273),
  (126065, 126123), (126125, 126127), (126129, 126132), (126209, 126253), (126255, 126269),
  (126464, 126467), (126469, 126495), (126497, 126498), (126500, 126500), (126503, 126503),
  (126505, 126514), (126516, 126519), (126521, 126521), (126523, 126523), (126530, 126530),
  (126535, 126535), (126537, 126537), (126539, 126539), (126541, 126543), (126545, 126546),
  (126548, 126548), (126551, 126551), (126553, 126553), (126555, 126555), (126557, 126557),
  (126559, 126559), (126561, 126562), (126564, 126564), (126567, 126570), (126572, 126578),
  (126580, 126583), (126585, 126588), (126590, 126590), (126592, 126601), (126603, 126619),
  (126625, 126627), (126629, 126633), (126635, 126651), (127232, 127244), (130032, 130041),
  (131072, 173791), (173824, 177976), (177984, 178205), (178208, 183969), (183984, 191456),
  (194560, 195101), (196608, 201546)]

/-- Python's `str.isalnum` on a code point: membership in the Unicode
letter/number table. -/
def pyIsAlnumCode (n : Nat) : Bool :=
  alnumRanges.any (fun p => decide (p.1 ≤ n) && decide (n ≤ p.2))

/-- Python's `str.isalnum` on a single character. -/
def pyIsAlnum (c : Char) : Bool := pyIsAlnumCode c.toNat

/-- JSON values as produced by `json.loads`.  Strings and object keys are
decoded code-point sequences (escapes resolved, surrogate escape pairs
combined, lone surrogates kept); numbers keep their lexeme, so equality of
number values refines Python's equality and agrees with it whenever
identical source text is parsed, which is the only way the script ever
compares parses. -/
inductive Json where
  | null
  | bool (b : Bool)
  | num (lexeme : String)
  | str (codes : List Nat)
  | arr (elems : List Json)
  | obj (members : List (List Nat × Json))

/-- JSON whitespace, as skipped by Python's decoder (`' '`, `'\t'`, `'\n'`, `'\r'`). -/
def isJsonWs (c : Char) : Bool := c == ' ' || c == '\t' || c == '\n' || c == '\r'

/-- Skip JSON whitespace. -/
def skipWs (cs : List Char) : List Char := cs.dropWhile isJsonWs

/-- Hexadecimal digit test, for `\uXXXX` escapes. -/
def isHexDigit (c : Char) : Bool :=
  c.isDigit || ('a' ≤ c && c ≤ 'f') || ('A' ≤ c && c ≤ 'F')

/-- Value of a hexadecimal digit. -/
def hexVal (c : Char) : Nat :=
  if c.isDigit then c.toNat - 48
  else if 'a' ≤ c then c.toNat - 87
  else c.toNat - 55

/-- Value of a four-digit hexadecimal escape. -/
def hex4 (h1 h2 h3 h4 : Char) : Nat :=
  hexVal h1 * 4096 + hexVal h2 * 256 + hexVal h3 * 16 + hexVal h4

/-- Decoded code of a single-character JSON escape, `none` when invalid. -/
def escCode (e : Char) : Option Nat :=
  if e == '"' then some 34
  else if e == '\\' then some 92
  else if e == '/' then some 47
  else if e == 'b' then some 8
  else if e == 'f' then some 12
  else if e == 'n' then some 10
  else if e == 'r' then some 13
  else if e == 't' then some 9
  else none

/-- Scan a JSON string body (input starts after the opening quote) and
decode it, mirroring Python's strict `scanstring`: a raw control character
below `0x20` is rejected; escapes are limited to `" \ / b f n r t` and
`\uXXXX` with four hex digits; a high-surrogate escape immediately followed
by a low-surrogate escape is combined into one scalar, a high-surrogate
escape followed by `\u` and invalid hex is an error, and any other lone
surrogate escape stays as a lone surrogate code.  Returns the decoded code
points and the rest of the input after the closing quote.  The fuel is
decremented once per consumed escape or character, so `length + 1` fuel
always suffices. -/
def scanString : Nat → List Char → Option (List Nat × List Char)
  | 0, _ => none
  | _ + 1, [] => none
  | fuel + 1, c :: cs =>
    if c == '"' then some ([], cs)
    else if c == '\\' then
      match cs with
      | [] => none
      | e :: cs2 =>
        if e == 'u' then
          match cs2 with
          | h1 :: h2 :: h3 :: h4 :: cs3 =>
            if isHexDigit h1 && isHexDigit h2 && isHexDigit h3 && isHexDigit h4 then
              let u := hex4 h1 h2 h3 h4
              if decide (0xD800 ≤ u) && decide (u ≤ 0xDBFF) then
                match cs3 with
                | b1 :: b2 :: g1 :: g2 :: g3 :: g4 :: cs4 =>
                  if b1 == '\\' && b2 == 'u' then
                    if isHexDigit g1 && isHexDigit g2 && isHexDigit g3 && isHexDigit g4 then
                      let u2 := hex4 g1 g2 g3 g4
                      if decide (0xDC00 ≤ u2) && decide (u2 ≤ 0xDFFF) then
                        match scanString fuel cs4 with
                        | some (codes, rest) =>
                          some ((0x10000 + (u - 0xD800) * 0x400 + (u2 - 0xDC00)) :: codes, rest)
                        | none => none
                      else
                        match scanString fuel cs3 with
                        | some (codes, rest) => some (u :: codes, rest)
                        | none => none
                    else none
                  else
                    match scanString fuel cs3 with
                    | some (codes, rest) => some (u :: codes, rest)
                    | none => none
                | _ =>
                  match scanString fuel cs3 with
                  | some (codes, rest) => some (u :: codes, rest)
                  | none => none
              else
                match scanString fuel cs3 with
                | some (codes, rest) => some (u :: codes, rest)
                | none => none
            else none
          | _ => none
        else
          match escCode e with
          | some n =>
            match scanString fuel cs2 with
            | some (codes, rest) => some (n :: codes, rest)
            | none => none
          | none => none
    else if c.toNat < 32 then none
    else
      match scanString fuel cs with
      | some (codes, rest) => some (c.toNat :: codes, rest)
      | none => none

/-- Split off a maximal run of decimal digits. -/
def scanDigits (cs : List Char) : List Char × List Char :=
  (cs.takeWhile Char.isDigit, cs.dropWhile Char.isDigit)

/-- Integer part of a JSON number: `0` alone, or a nonzero digit followed by
digits (Python's `NUMBER_RE`). -/
def scanIntPart : List Char → Option (List Char × List Char)
  | [] => none
  | c :: cs =>
    if c == '0' then some ([c], cs)
    else if c.isDigit then
      match scanDigits cs with
      | (ds, rest) => some (c :: ds, rest)
    else none

/-- Optional fraction part `.digits`; consumed only when at least one digit
follows the dot, as in Python's number regex. -/
def scanFrac (cs : List Char) : List Char × List Char :=
  match cs with
  | c :: cs2 =>
    if c == '.' then
      match scanDigits cs2 with
      | ([], _) => ([], cs)
      | (ds, rest) => (c :: ds, rest)
    else ([], cs)
  | [] => ([], cs)

/-- Optional exponent part `e[+-]?digits`; consumed only when digits follow,
as in Python's number regex. -/
def scanExpPart (cs : List Char) : List Char × List Char :=
  match cs with
  | e :: cs2 =>
    if e == 'e' || e == 'E' then
      match cs2 with
      | s :: cs3 =>
        if s == '+' || s == '-' then
          match scanDigits cs3 with
          | ([], _) => ([], cs)
          | (ds, rest) => (e :: s :: ds, rest)
        else
          match scanDigits cs2 with
          | ([], _) => ([], cs)
          | (ds, rest) => (e :: ds, rest)
      | [] => ([], cs)
    else ([], cs)
  | [] => ([], cs)

/-- Scan a JSON number token, returning its lexeme and the rest. -/
def scanNumber (cs : List Char) : Option (List Char × List Char) :=
  match cs with
  | c :: cs2 =>
    if c == '-' then
      match scanIntPart cs2 with
      | some (ip, rest1) =>
        match scanFrac rest1 with
        | (fp, rest2) =>
          match scanExpPart rest2 with
          | (ep, rest3) => some (c :: (ip ++ fp ++ ep), rest3)
      | none => none
    else
      match scanIntPart cs with
      | some (ip, rest1) =>
        match scanFrac rest1 with
        | (fp, rest2) =>
          match scanExpPart rest2 with
          | (ep, rest3) => some (ip ++ fp ++ ep, rest3)
      | none => none
  | [] => none

/-- Match a literal token at the head of the input, returning the rest. -/
def matchLit (lit : List Char) (cs : List Char) : Option (List Char) :=
  if lit.isPrefixOf cs then some (cs.drop lit.length) else none

mutual

/-- Parse one JSON value at the head of the input (whitespace already
skipped), mirroring Python's `_scan_once`: strings, objects, arrays, the
literals `null`/`true`/`false`, numbers, and the Python extras `NaN`,
`Infinity`, `-Infinity`.  Fuel is decremented on every recursive call; every
call works on a strictly shorter suffix, so `length + 2` fuel suffices. -/
def parseValue : Nat → List Char → Option (Json × List Char)
  | 0, _ => none
  | _ + 1, [] => none
  | fuel + 1, c :: cs =>
    if c == '"' then
      match scanString (cs.length + 1) cs with
      | some (codes, rest) => some (.str codes, rest)
      | none => none
    else if c == obr then
      match skipWs cs with
      | [] => none
      | d :: cs2 =>
        if d == cbr then some (.obj [], cs2)
        else
          match parseMembers fuel (d :: cs2) with
          | some (ms, rest) => some (.obj ms, rest)
          | none => none
    else if c == '[' then
      match skipWs cs with
      | [] => none
      | d :: cs2 =>
        if d == ']' then some (.arr [], cs2)
        else
          match parseElems fuel (d :: cs2) with
          | some (vs, rest) => some (.arr vs, rest)
          | none => none
    else if c == 'n' then
      match matchLit ['n', 'u', 'l', 'l'] (c :: cs) with
      | some rest => some (.null, rest)
      | none => none
    else if c == 't' then
      match matchLit ['t', 'r', 'u', 'e'] (c :: cs) with
      | some rest => some (.bool true, rest)
      | none => none
    else if c == 'f' then
      match matchLit ['f', 'a', 'l', 's', 'e'] (c :: cs) with
      | some rest => some (.bool false, rest)
      | none => none
    else
      match scanNumber (c :: cs) with
      | some (lex, rest) => some (.num (String.mk lex), rest)
      | none =>
        if c == 'N' then
          match matchLit ['N', 'a', 'N'] (c :: cs) with
          | some rest => some (.num "NaN", rest)
          | none => none
        else if c == 'I' then
          match matchLit ['I', 'n', 'f', 'i', 'n', 'i', 't', 'y'] (c :: cs) with
          | some rest => some (.num "Infinity", rest)
          | none => none
        else if c == '-' then
          match matchLit ['-', 'I', 'n', 'f', 'i', 'n', 'i', 't', 'y'] (c :: cs) with
          | some rest => some (.num "-Infinity", rest)
          | none => none
        else none

/-- Parse the members of a JSON object, positioned at a key's opening quote;
keys are decoded like every string.  Returns the member list and the rest
after the closing brace. -/
def parseMembers : Nat → List Char → Option (List (List Nat × Json) × List Char)
  | 0, _ => none
  | _ + 1, [] => none
  | fuel + 1, c :: cs =>
    if c == '"' then
      match scanString (cs.length + 1) cs with
      | none => none
      | some (keyCodes, r1) =>
        match skipWs r1 with
        | [] => none
        | colon :: r2 =>
          if colon == ':' then
            match parseValue fuel (skipWs r2) with
            | none => none
            | some (v, r3) =>
              match skipWs r3 with
              | [] => none
              | d :: r4 =>
                if d == cbr then some ([(keyCodes, v)], r4)
                else if d == ',' then
                  match parseMembers fuel (skipWs r4) with
                  | some (ms, r5) => some ((keyCodes, v) :: ms, r5)
                  | none => none
                else none
          else none
    else none

/-- Parse the elements of a JSON array, positioned at the first element;
returns the element list and the rest after the closing bracket. -/
def parseElems : Nat → List Char → Option (List Json × List Char)
  | 0, _ => none
  | fuel + 1, cs =>
    match parseValue fuel cs with
    | none => none
    | some (v, r1) =>
      match skipWs r1 with
      | [] => none
      | d :: r2 =>
        if d == ']' then some ([v], r2)
        else if d == ',' then
          match parseElems fuel (skipWs r2) with
          | some (vs, r3) => some (v :: vs, r3)
          | none => none
        else none

end

/-- Model of Python's `json.loads` on a character list: skip leading
whitespace, parse one value, and require only whitespace to remain
(otherwise Python raises `Extra data`).  `none` models a raised
`json.JSONDecodeError`. -/
def json_loads_list (cs : List Char) : Option Json :=
  match parseValue (cs.length + 2) (skipWs cs) with
  | some (v, rest) => if (skipWs rest).isEmpty then some v else none
  | none => none

/-- Model of `json.loads` on a string. -/
def json_loads (s : String) : Option Json := json_loads_list s.data

/-- Strip characters satisfying `p` from both ends of a list, like Python's
`str.strip`. -/
def stripEnds (p : Char → Bool) (cs : List Char) : List Char :=
  ((cs.dropWhile p).reverse.dropWhile p).reverse

/-- Python's `text.strip()`. -/
def pyStripL (cs : List Char) : List Char := stripEnds pyIsSpace cs

/-- Python's `text.strip("\x60")`: strip backticks from both ends. -/
def stripTicksL (cs : List Char) : List Char := stripEnds (fun c => c == btick) cs

/-- The triple-backtick fence marker. -/
def tripleTick : List Char := [btick, btick, btick]

/-- The `json` language tag of a fenced block. -/
def jsonTag : List Char := ['j', 's', 'o', 'n']

/-- The cleaning phase of `_extract_json`: strip surrounding whitespace; if
the result starts and ends with a triple-backtick fence, strip all backticks
from both ends and strip whitespace again; if what remains starts with the
tag `json`, drop those four characters and strip whitespace once more. -/
def cleanText (cs : List Char) : List Char :=
  let cleaned := pyStripL cs
  if tripleTick.isPrefixOf cleaned && tripleTick.isSuffixOf cleaned then
    let c2 := pyStripL (stripTicksL cleaned)
    if jsonTag.isPrefixOf c2 then pyStripL (c2.drop 4) else c2
  else cleaned

/-- The brace-depth scan of `_extract_json`, started on the suffix of the
cleaned text that begins at the first `\x7b`.  Increment depth on `\x7b`,
decrement on `\x7d`; when depth returns to zero the accumulated span is the
candidate substring.  `none` means the depth never returned to zero.  Depth
is an `Int`, exactly as in the Python loop. -/
def scanBalanced : List Char → Int → List Char → Option (List Char)
  | [], _, _ => none
  | c :: cs, depth, acc =>
    if c == obr then scanBalanced cs (depth + 1) (c :: acc)
    else if c == cbr then
      if depth - 1 == 0 then some ((c :: acc).reverse)
      else scanBalanced cs (depth - 1) (c :: acc)
    else scanBalanced cs depth (c :: acc)

/-- The first balanced-brace candidate of a cleaned text: the brace-depth
scan started at the first `\x7b`, if any. -/
def firstCandidate (cs : List Char) : Option (List Char) :=
  scanBalanced (cs.dropWhile (fun c => !(c == obr))) 0 []

/-- Model of `_extract_json`: clean the text, try `json.loads` on the whole
of it; otherwise locate the first `\x7b` (failing with "No JSON object found
in response." when there is none), take the first balanced-brace candidate
and try to parse it, failing with "Unable to parse JSON from response text."
when the candidate fails to parse or the depth never returns to zero. -/
def _extract_json (text : String) : Except String Json :=
  let cleaned := cleanText text.data
  match json_loads_list cleaned with
  | some v => Except.ok v
  | none =>
    match cleaned.dropWhile (fun c => !(c == obr)) with
    | [] => Except.error "No JSON object found in response."
    | d :: suffix2 =>
      match scanBalanced (d :: suffix2) 0 [] with
      | some candidate =>
        match json_loads_list candidate with
        | some v => Except.ok v
        | none => Except.error "Unable to parse JSON from response text."
      | none => Except.error "Unable to parse JSON from response text."

/-- Python exception values that the script can raise: `ValueError` (from
`_extract_json`, from `str.format`, and from setting a header containing a
line break), `KeyError` (dict subscript or format field on a missing key),
`TypeError` (iterating or subscripting a value of the wrong type),
`AttributeError` (`.get` on a non-dict, `isalnum` on a non-string),
`IndexError` (positional format field with no positional arguments),
`UnicodeEncodeError` (encoding a lone surrogate), and errors raised by the
remote model service or the SMTP transport. -/
inductive PyErr where
  | valueError (msg : String)
  | keyError (key : String)
  | typeError (msg : String)
  | attributeError (msg : String)
  | indexError (msg : String)
  | unicodeEncodeError (msg : String)
  | remoteError (msg : String)
  | smtpError (msg : String)
  deriving DecidableEq, Repr

/-- Lookup in the member list of a parsed JSON object with Python dict
semantics: keys compare as decoded code-point sequences, and when a key
occurs several times the value stored last wins. -/
def dictGetLast (members : List (List Nat × Json)) (key : String) : Option Json :=
  match members with
  | [] => none
  | (k, v) :: rest =>
    match dictGetLast rest key with
    | some v2 => some v2
    | none => if k == strCodes key then some v else none

/-- Python subscript `value[key]` with a string key: `KeyError` when the key
is absent from a dict, `TypeError` when the value is not a dict. -/
def pySubscript (j : Json) (key : String) : Except PyErr Json :=
  match j with
  | .obj m =>
    match dictGetLast m key with
    | some v => Except.ok v
    | none => Except.error (.keyError key)
  | _ => Except.error (.typeError "value is not subscriptable by a string key")

/-- A character kept by the title sanitizer:
`c.isalnum() or c in (" ", "_", "-")`. -/
def keptBySanitizer (c : Char) : Bool :=
  pyIsAlnum c || c == ' ' || c == '_' || c == '-'

/-- The script's `safe_title` on a string title: keep only alphanumeric
characters, spaces, underscores and hyphens, then strip surrounding
whitespace. -/
def safe_title (title : String) : String :=
  String.mk (pyStripL (title.data.filter keptBySanitizer))

/-- Python's `str.replace` for single characters: replace every occurrence. -/
def pyReplace (s : String) (a b : Char) : String :=
  String.mk (s.data.map (fun c => if c == a then b else c))

/-- The article filename: `<date>_<safe title with spaces replaced by underscores>.txt`. -/
def articleFilename (today title : String) : String :=
  today ++ "_" ++ pyReplace (safe_title title) ' ' '_' ++ ".txt"

/-- The spec's description of the stored filename stem, modelled from the
spec's words for comparison with the code's `safe_title`-based construction:
keep only alphanumeric characters, spaces, underscores and hyphens, trim
surrounding whitespace, and replace remaining spaces with underscores. -/
def specSanitizedStem (title : String) : String :=
  String.mk ((pyStripL (title.data.filter keptBySanitizer)).map
    (fun c => if c == ' ' then '_' else c))

/-- Python's `str.isalnum` on a whole decoded string: nonempty and made of
alphanumeric code points only. -/
def pyStrAllAlnum (codes : List Nat) : Bool :=
  !codes.isEmpty && codes.all pyIsAlnumCode

/-- Whether one element of a list (or one dict key) iterated by the title
sanitizer is kept: `c.isalnum() or c in (" ", "_", "-")` on a whole
string element. -/
def keptElem (codes : List Nat) : Bool :=
  pyStrAllAlnum codes || codes == [32] || codes == [95] || codes == [45]

/-- The distinct keys of a parsed JSON object in first-insertion order, as
Python dict iteration yields them. -/
def firstKeysAux (seen : List (List Nat)) : List (List Nat × Json) → List (List Nat)
  | [] => []
  | (k, _) :: rest =>
    if seen.contains k then firstKeysAux seen rest
    else k :: firstKeysAux (k :: seen) rest

/-- Join the elements kept by the sanitizer's generator when the title is a
list: every element must be a string (`c.isalnum()` raises
`AttributeError` otherwise), and a kept element contributes its code
points. -/
def joinStrElems : List Json → Except PyErr (List Nat)
  | [] => Except.ok []
  | Json.str codes :: rest =>
    match joinStrElems rest with
    | Except.ok out => Except.ok ((if keptElem codes then codes else []) ++ out)
    | Except.error e => Except.error e
  | _ :: _ => Except.error (.attributeError "object has no attribute isalnum")

/-- The script's `safe_title` computation applied to the parsed `title`
value, which Python join-iterates whatever its type: a string is filtered
character by character; a list is iterated element by element (every element
must itself be a string); a dict is iterated over its distinct keys in
insertion order; any other value is not iterable and raises `TypeError`.
The result is stripped of surrounding whitespace.  For a string title a
lone-surrogate code becomes NUL under `codesToStr` and is then dropped by
the filter, exactly as Python's filter drops the surrogate itself. -/
def pySafeTitle (j : Json) : Except PyErr String :=
  match j with
  | .str codes => Except.ok (safe_title (codesToStr codes))
  | .arr elems =>
    match joinStrElems elems with
    | Except.ok codes => Except.ok (String.mk (pyStripL (codesToStr codes).data))
    | Except.error e => Except.error e
  | .obj mems =>
    match joinStrElems ((firstKeysAux [] mems).map Json.str) with
    | Except.ok codes => Except.ok (String.mk (pyStripL (codesToStr codes).data))
    | Except.error e => Except.error e
  | _ => Except.error (.typeError "object is not iterable")

/-- POSIX `os.path.join` for two components: an absolute second component
wins; otherwise a separator is inserted unless the first component is empty
or already ends with one. -/
def pyOsPathJoin (a b : String) : String :=
  if ['/'].isPrefixOf b.data then b
  else if a.data.isEmpty || ['/'].isSuffixOf a.data then String.mk (a.data ++ b.data)
  else String.mk (a.data ++ '/' :: b.data)

/-- Python's `str()` rendering of a parsed JSON value, used when a value is
substituted into a directive template or an f-string.  Exact for
surrogate-free strings, numbers, booleans and `None`; container renderings
are abbreviated, and no claim constrains an environment in which they are
reached. -/
def pyStrOfJson : Json → String
  | .str codes => codesToStr codes
  | .num lexeme => lexeme
  | .bool true => "True"
  | .bool false => "False"
  | .null => "None"
  | .arr _ => "[...]"
  | .obj _ => "\x7b...\x7d"

/-- The code points of the `str()` rendering of a parsed JSON value; for a
string value these are its decoded codes themselves, surrogates included. -/
def jsonStrCodesRaw : Json → List Nat
  | .str codes => codes
  | j => strCodes (pyStrOfJson j)

/-- The field-substitution core of `str.format` with keyword arguments:
`\x7b\x7b` and `\x7d\x7d` are escapes for literal braces, `\x7bname\x7d` is
replaced by the named argument, a missing name raises `KeyError`, an empty
or all-digit name is a positional field and raises `IndexError` because no
positional arguments are passed, and stray or unclosed braces raise
`ValueError`.  Conversions, format specs and attribute access inside a
field are not modelled; the cycle claims restrict their environments to
templates this function formats successfully, and on those it agrees with
Python exactly.  Fuel is decremented once per consumed character, so
`length + 1` fuel suffices. -/
def substFields (args : List (String × String)) : Nat → List Char → Except PyErr (List Char)
  | 0, cs => Except.ok cs
  | _ + 1, [] => Except.ok []
  | fuel + 1, c :: cs =>
    if c == obr then
      match cs with
      | [] => Except.error (.valueError "expected close brace before end of string")
      | d :: cs2 =>
        if d == obr then
          match substFields args fuel cs2 with
          | Except.ok out => Except.ok (c :: out)
          | Except.error e => Except.error e
        else
          match cs.dropWhile (fun x => !(x == cbr)) with
          | [] => Except.error (.valueError "expected close brace before end of string")
          | _ :: rest2 =>
            let nameCs := cs.takeWhile (fun x => !(x == cbr))
            match args.lookup (String.mk nameCs) with
            | some val =>
              match substFields args fuel rest2 with
              | Except.ok out => Except.ok (val.data ++ out)
              | Except.error e => Except.error e
            | none =>
              if nameCs.isEmpty || nameCs.all Char.isDigit then
                Except.error (.indexError "Replacement index out of range for positional args tuple")
              else Except.error (.keyError (String.mk nameCs))
    else if c == cbr then
      match cs with
      | d :: cs2 =>
        if d == cbr then
          match substFields args fuel cs2 with
          | Except.ok out => Except.ok (c :: out)
          | Except.error e => Except.error e
        else Except.error (.valueError "Single close brace encountered in format string")
      | [] => Except.error (.valueError "Single close brace encountered in format string")
    else
      match substFields args fuel cs with
      | Except.ok out => Except.ok (c :: out)
      | Except.error e => Except.error e

/-- `template.format(args...)` as used for directives 2 to 4. -/
def pyFormat (tpl : String) (args : List (String × String)) : Except PyErr String :=
  match substFields args (tpl.data.length + 1) tpl.data with
  | Except.ok out => Except.ok (String.mk out)
  | Except.error e => Except.error e

/-- The four directive command templates of the master directive set. -/
structure Directives where
  d1 : String
  d2 : String
  d3 : String
  d4 : String
  deriving DecidableEq, Repr

/-- The environment of one cycle run: the directive commands, today's date
(`strftime('%Y-%m-%d')`), the output folder (created at startup), the
remote model's reply to the `n`-th `chat.send_message` call (or the
transport error it raises), and the outcome of the SMTP delivery attempt. -/
structure CycleEnv where
  directives : Directives
  today : String
  outputFolder : String
  replies : Nat → Except PyErr String
  smtpResult : Except PyErr Unit

/-- What became of one email delivery attempt inside `send_email`'s `try`. -/
inductive EmailOutcome where
  | sent
  | failedLogged (e : PyErr)
  deriving DecidableEq, Repr

/-- The outcome of the `try` block of `send_email` for a given SMTP result:
delivery errors are caught there and logged. -/
def smtpOutcome : Except PyErr Unit → EmailOutcome
  | Except.ok _ => .sent
  | Except.error e => .failedLogged e

/-- The observable record of one completed `send_email` call: the subject
and body it used and the outcome of the delivery attempt. -/
structure EmailLog where
  subjectUsed : String
  bodyUsed : String
  outcome : EmailOutcome
  deriving DecidableEq, Repr

/-- Model of `send_email` on the decoded subject and body.  Before the
`try` block the function sets the `Subject` header — raising `ValueError`
when the subject contains a linefeed or carriage return, and
`UnicodeEncodeError` when it contains a lone surrogate — and encodes the
body with `set_content`, raising `UnicodeEncodeError` on a lone surrogate.
These errors escape `send_email`.  Everything inside the `try` (connect,
STARTTLS, login, delivery) is caught there: its outcome is recorded in the
returned log and the function returns normally. -/
def send_email (subjectCodes bodyCodes : List Nat) (smtpResult : Except PyErr Unit) :
    Except PyErr EmailLog :=
  if subjectCodes.any (fun n => n == 10 || n == 13) then
    Except.error (.valueError "Header values may not contain linefeed or carriage return characters")
  else if !(subjectCodes.all isValidScalar) then
    Except.error (.unicodeEncodeError "utf-8 codec cannot encode lone surrogate")
  else if !(bodyCodes.all isValidScalar) then
    Except.error (.unicodeEncodeError "utf-8 codec cannot encode lone surrogate")
  else
    Except.ok { subjectUsed := codesToStr subjectCodes, bodyUsed := codesToStr bodyCodes,
                outcome := smtpOutcome smtpResult }

/-- The effects a cycle has performed: messages sent to the model (in
order), the article file written (path and contents), and the completed
email attempt. -/
structure CycleEffects where
  messagesSent : List String
  fileWritten : Option (String × String)
  emailLog : Option EmailLog
  deriving DecidableEq, Repr

/-- The trace returned by one cycle run: its effects plus the error caught
and logged by the top-level handler, if any. -/
structure CycleTrace where
  messagesSent : List String
  fileWritten : Option (String × String)
  emailLog : Option EmailLog
  errorLogged : Option PyErr
  deriving DecidableEq, Repr

/-- The body of `run_daily_research_cycle` (the inside of its `try`): the
four directive steps in order.  Returns the effects performed so far
together with the exception that escaped the body, if any.  Step 1 parses
the topic reply and subscripts `title` and `abstract`; steps 2 and 3 send
formatted directives and take the raw reply text; the article is then
written to `<folder>/<today>_<sanitized title>.txt`; step 4 formats
directive 4 with the title and the first 4000 characters of the article and
parses the reply; step 5 calls `send_email` with the fallback subject
`"Research Article Complete: <title>"` and fallback body `abstract`. -/
def cycleBody (env : CycleEnv) : CycleEffects × Option PyErr :=
  let d := env.directives
  let sent1 := [d.d1]
  match env.replies 0 with
  | .error e => (⟨sent1, none, none⟩, some e)
  | .ok topic_text =>
  match _extract_json topic_text with
  | .error m => (⟨sent1, none, none⟩, some (.valueError m))
  | .ok topic_data =>
  match pySubscript topic_data "title" with
  | .error e => (⟨sent1, none, none⟩, some e)
  | .ok titleJ =>
  match pySubscript topic_data "abstract" with
  | .error e => (⟨sent1, none, none⟩, some e)
  | .ok abstractJ =>
  match pyFormat d.d2 [("title", pyStrOfJson titleJ), ("abstract", pyStrOfJson abstractJ)] with
  | .error e => (⟨sent1, none, none⟩, some e)
  | .ok msg2 =>
  let sent2 := sent1 ++ [msg2]
  match env.replies 1 with
  | .error e => (⟨sent2, none, none⟩, some e)
  | .ok outline =>
  match pyFormat d.d3 [("outline", outline)] with
  | .error e => (⟨sent2, none, none⟩, some e)
  | .ok msg3 =>
  let sent3 := sent2 ++ [msg3]
  match env.replies 2 with
  | .error e => (⟨sent3, none, none⟩, some e)
  | .ok article_text =>
  match pySafeTitle titleJ with
  | .error e => (⟨sent3, none, none⟩, some e)
  | .ok st =>
  let filename := env.today ++ "_" ++ pyReplace st ' ' '_' ++ ".txt"
  let filepath := pyOsPathJoin env.outputFolder filename
  let file := some (filepath, article_text)
  match pyFormat d.d4 [("title", pyStrOfJson titleJ),
      ("full_article_text", String.mk (article_text.data.take 4000))] with
  | .error e => (⟨sent3, file, none⟩, some e)
  | .ok msg4 =>
  let sent4 := sent3 ++ [msg4]
  match env.replies 3 with
  | .error e => (⟨sent4, file, none⟩, some e)
  | .ok report_text =>
  match _extract_json report_text with
  | .error m => (⟨sent4, file, none⟩, some (.valueError m))
  | .ok email_data =>
  match email_data with
  | .obj em =>
    let subjJ := (dictGetLast em "email_subject").getD
      (Json.str (strCodes "Research Article Complete: " ++ jsonStrCodesRaw titleJ))
    let bodyJ := (dictGetLast em "email_body").getD abstractJ
    match subjJ, bodyJ with
    | .str sc, .str bc =>
      match send_email sc bc env.smtpResult with
      | .ok log => (⟨sent4, file, some log⟩, none)
      | .error e => (⟨sent4, file, none⟩, some e)
    | _, _ => (⟨sent4, file, none⟩, some (.typeError "email subject or body is not a string"))
  | _ => (⟨sent4, file, none⟩, some (.attributeError "parsed email report has no attribute get"))

/-- Model of `run_daily_research_cycle`: run the body under the top-level
`try/except`; an escaping exception is caught, its message logged into the
trace, and the function returns the effects unchanged (no rollback). -/
def run_daily_research_cycle (env : CycleEnv) : CycleTrace :=
  let r := cycleBody env
  { messagesSent := r.1.messagesSent
    fileWritten := r.1.fileWritten
    emailLog := r.1.emailLog
    errorLogged := r.2 }

/-- A JSON text wrapped in a plain triple-backtick markdown fence. -/
def fenceWrap (core : List Char) : List Char :=
  tripleTick ++ '\n' :: core ++ '\n' :: tripleTick

/-- A JSON text wrapped in a triple-backtick fence with the `json` tag. -/
def fenceJsonWrap (core : List Char) : List Char :=
  tripleTick ++ jsonTag ++ '\n' :: core ++ '\n' :: tripleTick

/-- A fixed directive set for concrete witness runs. -/
def wDirectives : Directives := ⟨"D1", "D2", "D3", "D4"⟩

/-- A base environment for concrete witness runs. -/
def wEnvBase : CycleEnv :=
  { directives := wDirectives
    today := "2026-10-12"
    outputFolder := "articles"
    replies := fun _ => Except.error (.remoteError "unused")
    smtpResult := Except.ok () }

/-- Witness environment: the topic reply is an object with no `title` key. -/
def wEnvC5 : CycleEnv :=
  { wEnvBase with replies := fun n =>
      if n == 0 then Except.ok "\x7b\"abstract\":\"A\"\x7d"
      else Except.error (.remoteError "unused") }

theorem extract_json_of_loads {t : String} {v : Json}
    (h : json_loads_list (cleanText t.data) = some v) :
    _extract_json t = Except.ok v := by
  simp only [_extract_json, h]

theorem mem_of_mem_stripEnds {p : Char → Bool} {c : Char} {l : List Char}
    (h : c ∈ stripEnds p l) : c ∈ l := by
  have h1 : c ∈ (l.dropWhile p).reverse.dropWhile p := List.mem_reverse.mp h
  have h2 : c ∈ (l.dropWhile p).reverse := (List.dropWhile_sublist p).subset h1
  exact (List.dropWhile_sublist p).subset (List.mem_reverse.mp h2)

theorem mem_of_mem_cleanText {c : Char} {cs : List Char}
    (h : c ∈ cleanText cs) : c ∈ cs := by
  simp only [cleanText] at h
  split at h
  · split at h
    · exact mem_of_mem_stripEnds (mem_of_mem_stripEnds
        (mem_of_mem_stripEnds (List.drop_subset 4 _ (mem_of_mem_stripEnds h))))
    · exact mem_of_mem_stripEnds (mem_of_mem_stripEnds (mem_of_mem_stripEnds h))
  · exact mem_of_mem_stripEnds h

theorem strCodes_append (s t : String) : strCodes (s ++ t) = strCodes s ++ strCodes t := by
  simp [strCodes, String.data_append]

/-! ### Claims about the JSON Extractor -/

/-- Claim C10: for every input string whose cleaned form (after whitespace
trimming and fence stripping) is valid JSON of any kind, `_extract_json`
returns exactly the result of parsing that whole cleaned string — including
non-object values — and never raises on such inputs; the brace-scanning
fallback is reached only when this whole-string parse fails. -/
theorem c10_whole_clean_parse_is_returned (t : String) (v : Json)
    (h : json_loads_list (cleanText t.data) = some v) :
    _extract_json t = Except.ok v :=
  extract_json_of_loads h

theorem c10_witness :
    json_loads_list (cleanText ("[1, 2]" : String).data)
        = some (Json.arr [Json.num "1", Json.num "2"])
      ∧ _extract_json "[1, 2]" = Except.ok (Json.arr [Json.num "1", Json.num "2"]) :=
  ⟨rfl, c10_whole_clean_parse_is_returned "[1, 2]" (Json.arr [Json.num "1", Json.num "2"]) rfl⟩

/-- Claim C2: when the whole cleaned text does not parse as JSON, the
extractor's result is determined by the first balanced top-level brace
candidate alone: it returns that candidate's parse when it parses, and fails
with "Unable to parse JSON from response text." when it does not — later
top-level objects in the text are never attempted. -/
theorem c2_only_first_candidate_tried (t : String) (cand : List Char)
    (h1 : json_loads_list (cleanText t.data) = none)
    (h2 : firstCandidate (cleanText t.data) = some cand) :
    _extract_json t =
      (match json_loads_list cand with
        | some v => Except.ok v
        | none => Except.error "Unable to parse JSON from response text.") := by
  simp only [_extract_json, h1]
  unfold firstCandidate at h2
  cases hd : (cleanText t.data).dropWhile (fun c => !(c == obr)) with
  | nil => rw [hd] at h2; exact absurd h2 (by simp [scanBalanced])
  | cons d suffix2 =>
    rw [hd] at h2
    simp only [h2]

theorem c2_witness :
    json_loads_list (cleanText ("x \x7bbad\x7d \x7b\"a\": 1\x7d" : String).data) = none
      ∧ firstCandidate (cleanText ("x \x7bbad\x7d \x7b\"a\": 1\x7d" : String).data)
          = some ("\x7bbad\x7d" : String).data
      ∧ json_loads_list ("\x7b\"a\": 1\x7d" : String).data
          = some (Json.obj [(strCodes "a", Json.num "1")])
      ∧ _extract_json "x \x7bbad\x7d \x7b\"a\": 1\x7d"
          = Except.error "Unable to parse JSON from response text." :=
  ⟨rfl, rfl, rfl,
    c2_only_first_candidate_tried "x \x7bbad\x7d \x7b\"a\": 1\x7d" ("\x7bbad\x7d" : String).data rfl rfl⟩

/-- Claim C3 (corrected): the claim as stated is false — an input with no
curly brace can still succeed, because the extractor first tries to parse
the whole cleaned text: `"42"` contains no brace, yet the extractor returns
the number 42 instead of failing. -/
theorem c3_counterexample :
    (∀ c ∈ ("42" : String).data, ¬(c = obr))
      ∧ _extract_json "42" = Except.ok (Json.num "42") :=
  ⟨by decide, rfl⟩

/-- Claim C3 (amended): for every input string containing no curly brace
whose cleaned form does not parse as JSON, the extractor fails with the
"No JSON object found" error. -/
theorem c3_no_brace_fails (t : String)
    (h1 : obr ∉ t.data)
    (h2 : json_loads_list (cleanText t.data) = none) :
    _extract_json t = Except.error "No JSON object found in response." := by
  simp only [_extract_json, h2]
  have hall : (cleanText t.data).dropWhile (fun c => !(c == obr)) = [] := by
    rw [List.dropWhile_eq_nil_iff]
    intro x hx
    have : x ∈ t.data := mem_of_mem_cleanText hx
    simp only [Bool.not_eq_true']
    exact beq_eq_false_iff_ne.mpr (fun hcontra => h1 (hcontra ▸ this))
  simp only [hall]

theorem c3_witness :
    (obr ∉ ("hello" : String).data)
      ∧ json_loads_list (cleanText ("hello" : String).data) = none
      ∧ _extract_json "hello" = Except.error "No JSON object found in response." :=
  ⟨by decide, rfl, c3_no_brace_fails "hello" (by decide) rfl⟩

/-- Claim C4 (corrected): the claim as stated is false — a string containing
an unbalanced opening brace can still succeed, because the extractor first
tries to parse the whole cleaned text: the three-character input consisting
of a double-quoted opening brace is a valid JSON string, its only brace is
never closed (the brace-depth scan never returns to zero), yet the extractor
returns that string value instead of failing. -/
theorem c4_counterexample :
    (obr ∈ ("\"\x7b\"" : String).data)
      ∧ firstCandidate ("\"\x7b\"" : String).data = none
      ∧ _extract_json "\"\x7b\"" = Except.ok (Json.str (strCodes "\x7b")) :=
  ⟨by decide, rfl, rfl⟩

/-- Claim C4 (amended): for every input whose cleaned form does not parse as
JSON and contains an opening brace from which the brace-depth count never
returns to zero, the extractor fails with the "Unable to parse JSON from
response text." error. -/
theorem c4_unbalanced_fails (t : String) (d : Char) (suffix2 : List Char)
    (h1 : json_loads_list (cleanText t.data) = none)
    (h2 : (cleanText t.data).dropWhile (fun c => !(c == obr)) = d :: suffix2)
    (h3 : scanBalanced (d :: suffix2) 0 [] = none) :
    _extract_json t = Except.error "Unable to parse JSON from response text." := by
  simp only [_extract_json, h1, h2, h3]

theorem c4_witness :
    json_loads_list (cleanText ("foo \x7b bar" : String).data) = none
      ∧ (cleanText ("foo \x7b bar" : String).data).dropWhile (fun c => !(c == obr))
          = obr :: (" bar" : String).data
      ∧ scanBalanced (obr :: (" bar" : String).data) 0 [] = none
      ∧ _extract_json "foo \x7b bar"
          = Except.error "Unable to parse JSON from response text." :=
  ⟨rfl, rfl, rfl, c4_unbalanced_fails "foo \x7b bar" obr (" bar" : String).data rfl rfl rfl⟩

/-! ### Claims about the cycle orchestrator -/

/-- Claim C7: for every title, the article filename is
`<date:YYYY-MM-DD>_<sanitized-title>.txt` where sanitization keeps only
alphanumeric characters (in Python's Unicode sense), spaces, underscores and
hyphens, trims surrounding whitespace, and replaces remaining spaces with
underscores; in particular the title `A/B: Test?` yields the filename stem
`AB_Test`, and a Unicode letter such as `é` is kept. -/
theorem c7_filename_sanitization (today title : String) :
    articleFilename today title = today ++ "_" ++ specSanitizedStem title ++ ".txt"
      ∧ pyReplace (safe_title "A/B: Test?") ' ' '_' = "AB_Test"
      ∧ articleFilename "2026-01-01" "A/B: Test?" = "2026-01-01_AB_Test.txt"
      ∧ safe_title "é" = "é" := by
  refine ⟨rfl, by decide, by decide, by decide⟩

/-- Claim C5: when the reply to directive 1 parses to a JSON object missing
the `title` key (or missing `abstract`), the cycle aborts before the outline
step: only directive 1's command is ever sent, no file is written and no
email is attempted. -/
theorem c5_missing_key_aborts (env : CycleEnv) (r1 : String)
    (m : List (List Nat × Json))
    (h0 : env.replies 0 = Except.ok r1)
    (h1 : _extract_json r1 = Except.ok (Json.obj m))
    (h2 : dictGetLast m "title" = none ∨ dictGetLast m "abstract" = none) :
    (run_daily_research_cycle env).messagesSent = [env.directives.d1]
      ∧ (run_daily_research_cycle env).fileWritten = none
      ∧ (run_daily_research_cycle env).emailLog = none := by
  cases h2 with
  | inl hT =>
    simp [run_daily_research_cycle, cycleBody, h0, h1, pySubscript, hT]
  | inr hA =>
    cases hT : dictGetLast m "title" with
    | none => simp [run_daily_research_cycle, cycleBody, h0, h1, pySubscript, hT]
    | some tv => simp [run_daily_research_cycle, cycleBody, h0, h1, pySubscript, hT, hA]

theorem c5_witness :
    wEnvC5.replies 0 = Except.ok "\x7b\"abstract\":\"A\"\x7d"
      ∧ _extract_json "\x7b\"abstract\":\"A\"\x7d"
          = Except.ok (Json.obj [(strCodes "abstract", Json.str (strCodes "A"))])
      ∧ dictGetLast [(strCodes "abstract", Json.str (strCodes "A"))] "title" = none
      ∧ ((run_daily_research_cycle wEnvC5).messagesSent = [wEnvC5.directives.d1]
          ∧ (run_daily_research_cycle wEnvC5).fileWritten = none
          ∧ (run_daily_research_cycle wEnvC5).emailLog = none) :=
  ⟨rfl, rfl, rfl, c5_missing_key_aborts wEnvC5 _ _ rfl rfl (Or.inl rfl)⟩

theorem dropWhile_append_all {p : Char → Bool} {w rest : List Char}
    (hw : ∀ c ∈ w, p c = true) : (w ++ rest).dropWhile p = rest.dropWhile p := by
  induction w with
  | nil => rfl
  | cons a w ih =>
    have ha : p a = true := hw a (List.mem_cons_self a w)
    simp only [List.cons_append, List.dropWhile_cons, ha, if_true]
    exact ih (fun c hc => hw c (List.mem_cons_of_mem a hc))

theorem stripEnds_pre_post (p : Char → Bool) (w1 w2 : List Char) (a b : Char)
    (l : List Char)
    (hw1 : ∀ c ∈ w1, p c = true) (hw2 : ∀ c ∈ w2, p c = true)
    (ha : p a = false) (hb : p b = false) :
    stripEnds p (w1 ++ (a :: (l ++ [b])) ++ w2) = a :: (l ++ [b]) := by
  unfold stripEnds
  rw [List.append_assoc, dropWhile_append_all hw1]
  have h1 : ((a :: (l ++ [b])) ++ w2).dropWhile p = a :: ((l ++ [b]) ++ w2) := by
    simp only [List.cons_append, List.dropWhile_cons, ha]
    simp
  rw [h1]
  have h2 : (a :: ((l ++ [b]) ++ w2)).reverse = w2.reverse ++ (b :: (l.reverse ++ [a])) := by
    simp
  rw [h2, dropWhile_append_all (fun c hc => hw2 c (List.mem_reverse.mp hc))]
  have h3 : (b :: (l.reverse ++ [a])).dropWhile p = b :: (l.reverse ++ [a]) := by
    simp only [List.dropWhile_cons, hb]
    simp
  rw [h3]
  simp

theorem stripEnds_no_op (p : Char → Bool) (a b : Char) (l : List Char)
    (ha : p a = false) (hb : p b = false) :
    stripEnds p (a :: (l ++ [b])) = a :: (l ++ [b]) := by
  have h := stripEnds_pre_post p [] [] a b l (by simp) (by simp) ha hb
  simpa using h

theorem cleanText_core (mid : List Char) :
    cleanText (obr :: (mid ++ [cbr])) = obr :: (mid ++ [cbr]) := by
  simp only [cleanText]
  have h1 : pyStripL (obr :: (mid ++ [cbr])) = obr :: (mid ++ [cbr]) :=
    stripEnds_no_op pyIsSpace obr cbr mid (by decide) (by decide)
  rw [h1]
  have h2 : tripleTick.isPrefixOf (obr :: (mid ++ [cbr])) = false := rfl
  rw [h2]
  simp

theorem pyStripL_no_op (a b : Char) (l : List Char)
    (ha : pyIsSpace a = false) (hb : pyIsSpace b = false) :
    pyStripL (a :: (l ++ [b])) = a :: (l ++ [b]) :=
  stripEnds_no_op pyIsSpace a b l ha hb

theorem pyStripL_pre_post (w1 w2 : List Char) (a b : Char) (l : List Char)
    (hw1 : ∀ c ∈ w1, pyIsSpace c = true) (hw2 : ∀ c ∈ w2, pyIsSpace c = true)
    (ha : pyIsSpace a = false) (hb : pyIsSpace b = false) :
    pyStripL (w1 ++ (a :: (l ++ [b])) ++ w2) = a :: (l ++ [b]) :=
  stripEnds_pre_post pyIsSpace w1 w2 a b l hw1 hw2 ha hb

theorem stripTicksL_pre_post (w1 w2 : List Char) (a b : Char) (l : List Char)
    (hw1 : ∀ c ∈ w1, (c == btick) = true) (hw2 : ∀ c ∈ w2, (c == btick) = true)
    (ha : (a == btick) = false) (hb : (b == btick) = false) :
    stripTicksL (w1 ++ (a :: (l ++ [b])) ++ w2) = a :: (l ++ [b]) :=
  stripEnds_pre_post (fun c => c == btick) w1 w2 a b l hw1 hw2 ha hb

theorem cleanText_fenceWrap (mid : List Char) :
    cleanText (fenceWrap (obr :: (mid ++ [cbr]))) = obr :: (mid ++ [cbr]) := by
  have hW : fenceWrap (obr :: (mid ++ [cbr]))
      = btick :: ((btick :: btick :: '\n' :: ((obr :: (mid ++ [cbr]))
          ++ ['\n', btick, btick])) ++ [btick]) := by
    simp [fenceWrap, tripleTick]
  simp only [cleanText]
  rw [hW]
  rw [pyStripL_no_op btick btick _ (by decide) (by decide)]
  have hpre : tripleTick.isPrefixOf (btick :: ((btick :: btick :: '\n'
      :: ((obr :: (mid ++ [cbr])) ++ ['\n', btick, btick])) ++ [btick])) = true := rfl
  have hsuf : tripleTick.isSuffixOf (btick :: ((btick :: btick :: '\n'
      :: ((obr :: (mid ++ [cbr])) ++ ['\n', btick, btick])) ++ [btick])) = true := by
    show List.isPrefixOf tripleTick.reverse
      (btick :: ((btick :: btick :: '\n'
        :: ((obr :: (mid ++ [cbr])) ++ ['\n', btick, btick])) ++ [btick])).reverse = true
    have hrev : (btick :: ((btick :: btick :: '\n'
        :: ((obr :: (mid ++ [cbr])) ++ ['\n', btick, btick])) ++ [btick])).reverse
        = btick :: btick :: btick :: '\n' :: cbr
            :: (mid.reverse ++ [obr, '\n', btick, btick, btick]) := by
      simp
    rw [hrev]
    rfl
  rw [hpre, hsuf]
  have hW2 : (btick :: ((btick :: btick :: '\n' :: ((obr :: (mid ++ [cbr]))
      ++ ['\n', btick, btick])) ++ [btick]))
      = tripleTick ++ ('\n' :: ((obr :: (mid ++ [cbr])) ++ ['\n'])) ++ tripleTick := by
    simp [tripleTick]
  rw [hW2]
  rw [stripTicksL_pre_post tripleTick tripleTick '\n' '\n' _
    (by decide) (by decide) (by decide) (by decide)]
  have hW3 : ('\n' :: ((obr :: (mid ++ [cbr])) ++ ['\n']))
      = ['\n'] ++ (obr :: (mid ++ [cbr])) ++ ['\n'] := by simp
  rw [hW3]
  rw [pyStripL_pre_post ['\n'] ['\n'] obr cbr mid
    (by decide) (by decide) (by decide) (by decide)]
  have hjson : jsonTag.isPrefixOf (obr :: (mid ++ [cbr])) = false := rfl
  rw [hjson]
  simp

theorem cleanText_fenceJsonWrap (mid : List Char) :
    cleanText (fenceJsonWrap (obr :: (mid ++ [cbr]))) = obr :: (mid ++ [cbr]) := by
  have hW : fenceJsonWrap (obr :: (mid ++ [cbr]))
      = btick :: ((btick :: btick :: 'j' :: 's' :: 'o' :: 'n' :: '\n'
          :: ((obr :: (mid ++ [cbr])) ++ ['\n', btick, btick])) ++ [btick]) := by
    simp [fenceJsonWrap, tripleTick, jsonTag]
  simp only [cleanText]
  rw [hW]
  rw [pyStripL_no_op btick btick _ (by decide) (by decide)]
  have hpre : tripleTick.isPrefixOf (btick :: ((btick :: btick :: 'j' :: 's' :: 'o' :: 'n'
      :: '\n' :: ((obr :: (mid ++ [cbr])) ++ ['\n', btick, btick])) ++ [btick])) = true := rfl
  have hsuf : tripleTick.isSuffixOf (btick :: ((btick :: btick :: 'j' :: 's' :: 'o' :: 'n'
      :: '\n' :: ((obr :: (mid ++ [cbr])) ++ ['\n', btick, btick])) ++ [btick])) = true := by
    show List.isPrefixOf tripleTick.reverse
      (btick :: ((btick :: btick :: 'j' :: 's' :: 'o' :: 'n' :: '\n'
        :: ((obr :: (mid ++ [cbr])) ++ ['\n', btick, btick])) ++ [btick])).reverse = true
    have hrev : (btick :: ((btick :: btick :: 'j' :: 's' :: 'o' :: 'n' :: '\n'
        :: ((obr :: (mid ++ [cbr])) ++ ['\n', btick, btick])) ++ [btick])).reverse
        = btick :: btick :: btick :: '\n' :: cbr
            :: (mid.reverse ++ [obr, '\n', 'n', 'o', 's', 'j', btick, btick, btick]) := by
      simp
    rw [hrev]
    rfl
  rw [hpre, hsuf]
  have hW2 : (btick :: ((btick :: btick :: 'j' :: 's' :: 'o' :: 'n' :: '\n'
      :: ((obr :: (mid ++ [cbr])) ++ ['\n', btick, btick])) ++ [btick]))
      = tripleTick ++ ('j' :: (('s' :: 'o' :: 'n' :: '\n' :: (obr :: (mid ++ [cbr])))
          ++ ['\n'])) ++ tripleTick := by
    simp [tripleTick]
  rw [hW2]
  rw [stripTicksL_pre_post tripleTick tripleTick 'j' '\n' _
    (by decide) (by decide) (by decide) (by decide)]
  have hW3 : ('j' :: (('s' :: 'o' :: 'n' :: '\n' :: (obr :: (mid ++ [cbr]))) ++ ['\n']))
      = [] ++ ('j' :: (('s' :: 'o' :: 'n' :: '\n' :: obr :: mid) ++ [cbr])) ++ ['\n'] := by
    simp
  rw [hW3]
  rw [pyStripL_pre_post [] ['\n'] 'j' cbr ('s' :: 'o' :: 'n' :: '\n' :: obr :: mid)
    (by simp) (by decide) (by decide) (by decide)]
  have hjson : jsonTag.isPrefixOf
      ('j' :: (('s' :: 'o' :: 'n' :: '\n' :: obr :: mid) ++ [cbr])) = true := rfl
  rw [hjson]
  have hW4 : ('j' :: (('s' :: 'o' :: 'n' :: '\n' :: obr :: mid) ++ [cbr])).drop 4
      = ['\n'] ++ (obr :: (mid ++ [cbr])) ++ [] := by
    simp
  rw [hW4]
  rw [pyStripL_pre_post ['\n'] [] obr cbr mid
    (by decide) (by simp) (by decide) (by decide)]
  simp

/-- Claim C1: for every string that is a valid JSON object (opening with a
curly brace and closing with one, and parsing under `json.loads`), possibly
wrapped in a triple-backtick fence with or without a leading `json` language
tag, the JSON Extractor succeeds and returns the value obtained by parsing
the object text itself, i.e. the wrapped input after fence removal. -/
theorem c1_fenced_object_roundtrip (mid : List Char) (v : Json)
    (h : json_loads_list (obr :: (mid ++ [cbr])) = some v) :
    _extract_json (String.mk (obr :: (mid ++ [cbr]))) = Except.ok v
      ∧ _extract_json (String.mk (fenceWrap (obr :: (mid ++ [cbr])))) = Except.ok v
      ∧ _extract_json (String.mk (fenceJsonWrap (obr :: (mid ++ [cbr])))) = Except.ok v := by
  refine ⟨extract_json_of_loads ?_, extract_json_of_loads ?_, extract_json_of_loads ?_⟩
  · show json_loads_list (cleanText (obr :: (mid ++ [cbr]))) = some v
    rw [cleanText_core]
    exact h
  · show json_loads_list (cleanText (fenceWrap (obr :: (mid ++ [cbr])))) = some v
    rw [cleanText_fenceWrap]
    exact h
  · show json_loads_list (cleanText (fenceJsonWrap (obr :: (mid ++ [cbr])))) = some v
    rw [cleanText_fenceJsonWrap]
    exact h

theorem c1_witness :
    json_loads_list (obr :: (("\"a\": 1" : String).data ++ [cbr]))
        = some (Json.obj [(strCodes "a", Json.num "1")])
      ∧ (_extract_json (String.mk (obr :: (("\"a\": 1" : String).data ++ [cbr])))
            = Except.ok (Json.obj [(strCodes "a", Json.num "1")])
          ∧ _extract_json (String.mk (fenceWrap (obr :: (("\"a\": 1" : String).data ++ [cbr]))))
            = Except.ok (Json.obj [(strCodes "a", Json.num "1")])
          ∧ _extract_json (String.mk
              (fenceJsonWrap (obr :: (("\"a\": 1" : String).data ++ [cbr]))))
            = Except.ok (Json.obj [(strCodes "a", Json.num "1")])) :=
  ⟨rfl, c1_fenced_object_roundtrip (("\"a\": 1" : String).data) (Json.obj [(strCodes "a", Json.num "1")]) rfl⟩
